import Mathlib

/-!
Verification of the `Timestamp` conversion and (de)serialization logic of
`pbjson-types/src/timestamp.rs`.

The file embeds the source's operations as executable Lean definitions:

* `Timestamp` and its structural equality / hash contract;
* the two `From` conversions between `Timestamp` and the calendar
  abstraction (`time::OffsetDateTime`, modelled from the spec as an
  epoch-nanosecond instant);
* RFC 3339 formatting and strict parsing (the `time` crate collaborator,
  modelled from the spec);
* the serde `Serialize` / `Deserialize` hooks, with the panicking
  `.unwrap()` of the `Timestamp → OffsetDateTime` conversion made explicit
  through the `PanicOr` result type.
-/

/-- The protobuf `Timestamp` message. Modelled from the spec: the struct
itself is produced by code generation (`crate::Timestamp`), with
`seconds: i64` and `nanos: i32` and a derived field-wise `PartialEq`;
machine integers are modelled as unbounded `Int` with explicit range
hypotheses where width matters. -/
structure Timestamp where
  seconds : Int
  nanos : Int
deriving DecidableEq

/-- The exact mathematical total-nanosecond value of a `Timestamp`. -/
def Timestamp.totalNs (ts : Timestamp) : Int :=
  ts.seconds * 1000000000 + ts.nanos

/-- Wrap an integer into the two's-complement range of a 128-bit signed
integer, as a Rust `i128` computation would. -/
def wrapI128 (x : Int) : Int :=
  (x + 2 ^ 127) % 2 ^ 128 - 2 ^ 127

/-- The intermediate value `ts.seconds as i128 * 1_000_000_000 + ts.nanos as i128`
computed by `From<Timestamp> for time::OffsetDateTime` (timestamp.rs line 19),
with every `i128` operation wrapped explicitly. -/
def Timestamp.totalNsI128 (ts : Timestamp) : Int :=
  wrapI128 (wrapI128 (wrapI128 ts.seconds * 1000000000) + wrapI128 ts.nanos)

/-- Result of a Rust computation that may panic (`unwrap`) instead of
returning. -/
inductive PanicOr (α : Type) where
  | panicked : PanicOr α
  | value : α → PanicOr α
deriving DecidableEq

deriving instance DecidableEq for Except

/-- Modelled from the spec: the calendar abstraction
(`time::OffsetDateTime`), a UTC-anchored calendar datetime value,
represented by the instant it denotes as nanoseconds since the Unix
epoch. -/
structure OffsetDateTime where
  ns : Int
deriving DecidableEq

/-- Epoch second of `0000-01-01T00:00:00Z`, the earliest instant of the
calendar abstraction's representable range as modelled from the spec
(the range of instants that RFC 3339 text can carry, years 0000-9999). -/
def minFmtSec : Int := -62167219200

/-- Epoch second of `9999-12-31T23:59:59Z`. -/
def maxFmtSec : Int := 253402300799

/-- Smallest representable epoch-nanosecond count. -/
def minReprNs : Int := minFmtSec * 1000000000

/-- Largest representable epoch-nanosecond count. -/
def maxReprNs : Int := maxFmtSec * 1000000000 + 999999999

/-- Modelled from the spec: `OffsetDateTime::from_unix_timestamp_nanos`,
construction of a calendar value from an epoch-nanosecond count; fails
outside the representable instant range. -/
def OffsetDateTime.fromUnixTimestampNanos (n : Int) : Option OffsetDateTime :=
  if minReprNs ≤ n ∧ n ≤ maxReprNs then some ⟨n⟩ else none

/-- Modelled from the spec: `OffsetDateTime::unix_timestamp`, the whole
Unix-epoch second count of the instant (floor of the nanosecond count). -/
def OffsetDateTime.unixTimestamp (dt : OffsetDateTime) : Int :=
  dt.ns / 1000000000

/-- Modelled from the spec: `OffsetDateTime::nanosecond`, the sub-second
nanosecond component, always in `[0, 1_000_000_000)`. -/
def OffsetDateTime.nanosecond (dt : OffsetDateTime) : Int :=
  dt.ns % 1000000000

/-- `From<time::OffsetDateTime> for Timestamp` (timestamp.rs lines 6-15):
`seconds` is the Unix timestamp, `nanos` the sub-second component. -/
def Timestamp.fromOffsetDateTime (dt : OffsetDateTime) : Timestamp :=
  { seconds := dt.unixTimestamp, nanos := dt.nanosecond }

/-- `From<Timestamp> for time::OffsetDateTime` (timestamp.rs lines 17-24):
computes the total nanoseconds in `i128` and calls
`from_unix_timestamp_nanos(..).unwrap()`, panicking when the value is out
of the representable range. -/
def Timestamp.toOffsetDateTime (ts : Timestamp) : PanicOr OffsetDateTime :=
  match OffsetDateTime.fromUnixTimestampNanos ts.totalNsI128 with
  | some dt => .value dt
  | none => .panicked

/-- Proleptic-Gregorian leap-year test. -/
def isLeap (y : Nat) : Bool :=
  (y % 4 == 0 && y % 100 != 0) || y % 400 == 0

/-- Length of month `m` of year `y` in the proleptic Gregorian calendar. -/
def daysInMonth (y m : Nat) : Nat :=
  if m = 2 then (if isLeap y then 29 else 28)
  else if m = 4 ∨ m = 6 ∨ m = 9 ∨ m = 11 then 30
  else 31

/-- Year-of-era and day-of-year (March-based) of a day-of-era
`doe < 146097`, decomposed through the century / 4-year-group / year
structure of the Gregorian leap rule. -/
def yearDayOfDoe (doe : Nat) : Nat × Nat :=
  let c := min (doe / 36524) 3
  let dC := doe - 36524 * c
  let q := dC / 1461
  let r4 := dC % 1461
  let y1 := min (r4 / 365) 3
  (100 * c + 4 * q + y1, r4 - 365 * y1)

/-- March-based month index (`0` = March) and day-of-month of a
day-of-year `doy ≤ 365`. -/
def monthDayOfDoy (doy : Nat) : Nat × Nat :=
  let mp := (5 * doy + 2) / 153
  (mp, doy - (153 * mp + 2) / 5 + 1)

/-- Modelled from the spec: civil (year, month, day) of day number `n`,
where day `0` is `-0400-03-01` of the proleptic Gregorian calendar (so
every day of years 0000-9999 has a `Nat` day number). -/
def civilFromDays (n : Nat) : Nat × Nat × Nat :=
  let era := n / 146097
  let doe := n % 146097
  let yd := yearDayOfDoe doe
  let md := monthDayOfDoy yd.2
  let y := 400 * era + yd.1
  let m := if md.1 < 10 then md.1 + 3 else md.1 - 9
  ((if m ≤ 2 then y + 1 else y) - 400, m, md.2)

/-- Modelled from the spec: day number (day `0` = `-0400-03-01`) of a
civil (year, month, day) of the proleptic Gregorian calendar, for years
`0000`-`9999`. -/
def daysFromCivil (y m d : Nat) : Nat :=
  let yy := if m ≤ 2 then y + 399 else y + 400
  let era := yy / 400
  let yoe := yy % 400
  let mp := if 3 ≤ m then m - 3 else m + 9
  let doy := (153 * mp + 2) / 5 + (d - 1)
  let doe := 365 * yoe + yoe / 4 - yoe / 100 + doy
  146097 * era + doe

/-- Seconds from `-0400-03-01T00:00:00Z` (day `0` of `civilFromDays`) to
the Unix epoch: `865565 * 86400`. -/
def shiftSec : Int := 74784816000

/-- The decimal digit character for `d < 10`. -/
def digitChar (d : Nat) : Char := Char.ofNat (48 + d)

/-- `digitsPad k n`: the `k`-character zero-padded decimal rendering of
`n < 10 ^ k`, most significant digit first. -/
def digitsPad : Nat → Nat → List Char
  | 0, _ => []
  | k + 1, n => digitChar (n / 10 ^ k) :: digitsPad k (n % 10 ^ k)

/-- Number of trailing decimal zeros of `n`, up to the given fuel. -/
def trailingZeros : Nat → Nat → Nat
  | 0, _ => 0
  | f + 1, n => if n % 10 = 0 then trailingZeros f (n / 10) + 1 else 0

/-- Modelled from the spec: the fractional-second part of the RFC 3339
rendering — empty when the nanosecond count is zero, otherwise a decimal
point followed by the 9-digit nanosecond field with trailing zeros
trimmed (the `time` crate's canonical subsecond form). -/
def fracChars (nanos : Nat) : List Char :=
  if nanos = 0 then []
  else
    let z := trailingZeros 8 nanos
    '.' :: digitsPad (9 - z) (nanos / 10 ^ z)

/-- Modelled from the spec: RFC 3339 canonical UTC formatting of a
calendar value (`OffsetDateTime::format(&Rfc3339)`):
`YYYY-MM-DDTHH:MM:SS[.fraction]Z`. -/
def formatRfc3339 (dt : OffsetDateTime) : List Char :=
  let t : Nat := (dt.ns + shiftSec * 1000000000).toNat
  let nanos := t % 1000000000
  let secs := t / 1000000000
  let day := secs / 86400
  let sod := secs % 86400
  let ymd := civilFromDays day
  digitsPad 4 ymd.1 ++ '-' :: digitsPad 2 ymd.2.1 ++ '-' :: digitsPad 2 ymd.2.2 ++
    'T' :: digitsPad 2 (sod / 3600) ++ ':' :: digitsPad 2 (sod % 3600 / 60) ++
    ':' :: digitsPad 2 (sod % 60) ++ fracChars nanos ++ ['Z']

/-- `Serialize for Timestamp` (timestamp.rs lines 26-34): convert to an
`OffsetDateTime` via the (panicking) `From` conversion, format as RFC 3339
and emit the string payload.  The `Except` layer mirrors the serializer
error channel of the source; in this model, formatting a representable
calendar value cannot fail, so a non-panicking run always returns `.ok`. -/
def Timestamp.serialize (ts : Timestamp) : PanicOr (Except String String) :=
  match ts.toOffsetDateTime with
  | .panicked => .panicked
  | .value dt => .value (.ok (String.mk (formatRfc3339 dt)))

/-- Decimal digit value of a character, if it is one. -/
def charDigit (c : Char) : Option Nat :=
  if 48 ≤ c.toNat ∧ c.toNat ≤ 57 then some (c.toNat - 48) else none

/-- Read exactly `k` decimal digits, most significant first, extending the
accumulator. -/
def readFixed : Nat → Nat → List Char → Option (Nat × List Char)
  | 0, acc, cs => some (acc, cs)
  | k + 1, acc, cs =>
    match cs with
    | [] => none
    | c :: rest =>
      match charDigit c with
      | some d => readFixed k (10 * acc + d) rest
      | none => none

/-- Consume one expected character. -/
def expectChar (c : Char) : List Char → Option (List Char)
  | [] => none
  | x :: rest => if x = c then some rest else none

/-- Consume the RFC 3339 date/time separator (`T`, case-insensitive). -/
def expectSep : List Char → Option (List Char)
  | [] => none
  | x :: rest => if x = 'T' ∨ x = 't' then some rest else none

/-- Greedily read decimal digits, returning value, count and remainder. -/
def readDigitsAux : List Char → Nat → Nat → Nat × Nat × List Char
  | [], acc, cnt => (acc, cnt, [])
  | c :: rest, acc, cnt =>
    match charDigit c with
    | some d => readDigitsAux rest (10 * acc + d) (cnt + 1)
    | none => (acc, cnt, c :: rest)

/-- The components carried by an RFC 3339 date-time string. -/
structure Rfc3339Parts where
  year : Nat
  month : Nat
  day : Nat
  hour : Nat
  minute : Nat
  second : Nat
  nanofrac : Nat
  offsetMinutes : Int
deriving DecidableEq

/-- Lex an optional fractional-second part (a point followed by one to
nine digits), returned as a nanosecond count. -/
def lexFrac (cs : List Char) : Option (Nat × List Char) :=
  match cs with
  | '.' :: rest =>
    let r := readDigitsAux rest 0 0
    if 1 ≤ r.2.1 ∧ r.2.1 ≤ 9 then some (r.1 * 10 ^ (9 - r.2.1), r.2.2) else none
  | _ => some (0, cs)

/-- Lex the RFC 3339 UTC offset: `Z`/`z` or a signed `HH:MM` pair,
returned in minutes. -/
def lexOffset (cs : List Char) : Option (Int × List Char) :=
  match cs with
  | 'Z' :: rest => some (0, rest)
  | 'z' :: rest => some (0, rest)
  | '+' :: rest =>
    (readFixed 2 0 rest).bind fun ph =>
    (expectChar ':' ph.2).bind fun r1 =>
    (readFixed 2 0 r1).bind fun pm =>
    if ph.1 ≤ 23 ∧ pm.1 ≤ 59 then some (Int.ofNat (60 * ph.1 + pm.1), pm.2) else none
  | '-' :: rest =>
    (readFixed 2 0 rest).bind fun ph =>
    (expectChar ':' ph.2).bind fun r1 =>
    (readFixed 2 0 r1).bind fun pm =>
    if ph.1 ≤ 23 ∧ pm.1 ≤ 59 then some (-Int.ofNat (60 * ph.1 + pm.1), pm.2) else none
  | _ => none

/-- Lex a complete RFC 3339 date-time string into its components,
requiring the whole input to be consumed. -/
def lexParts (cs : List Char) : Option Rfc3339Parts :=
  (readFixed 4 0 cs).bind fun py =>
  (expectChar '-' py.2).bind fun r1 =>
  (readFixed 2 0 r1).bind fun pmo =>
  (expectChar '-' pmo.2).bind fun r2 =>
  (readFixed 2 0 r2).bind fun pd =>
  (expectSep pd.2).bind fun r3 =>
  (readFixed 2 0 r3).bind fun ph =>
  (expectChar ':' ph.2).bind fun r4 =>
  (readFixed 2 0 r4).bind fun pmi =>
  (expectChar ':' pmi.2).bind fun r5 =>
  (readFixed 2 0 r5).bind fun pse =>
  (lexFrac pse.2).bind fun pf =>
  (lexOffset pf.2).bind fun poff =>
  if poff.2 = [] then
    some ⟨py.1, pmo.1, pd.1, ph.1, pmi.1, pse.1, pf.1, poff.1⟩
  else none

/-- Range validation of lexed components (strict calendar validity, as the
`time` crate enforces). -/
def validParts (p : Rfc3339Parts) : Bool :=
  decide (1 ≤ p.month ∧ p.month ≤ 12 ∧ 1 ≤ p.day ∧ p.day ≤ daysInMonth p.year p.month ∧
    p.hour ≤ 23 ∧ p.minute ≤ 59 ∧ p.second ≤ 59)

/-- The epoch-nanosecond instant denoted by validated RFC 3339
components. -/
def partsToInstantNs (p : Rfc3339Parts) : Int :=
  Int.ofNat ((86400 * daysFromCivil p.year p.month p.day +
      3600 * p.hour + 60 * p.minute + p.second) * 1000000000 + p.nanofrac) -
    shiftSec * 1000000000 - p.offsetMinutes * 60 * 1000000000

/-- Modelled from the spec: `OffsetDateTime::parse(s, &Rfc3339)`, the
strict RFC 3339 parser of the calendar collaborator, with its diagnostic
message on failure. -/
def parseRfc3339 (s : String) : Except String OffsetDateTime :=
  match lexParts s.data with
  | none => .error "the input string does not match the RFC 3339 date-time grammar"
  | some p =>
    if validParts p then .ok ⟨partsToInstantNs p⟩
    else .error "an RFC 3339 date-time component value is out of range"

/-- Modelled from the spec: `serde::de::Error::custom` applied to a parse
error — the deserialization error message is the collaborator's
diagnostic text, verbatim. -/
def serdeCustom (msg : String) : String := msg

/-- `TimestampVisitor::expecting` (timestamp.rs lines 41-43). -/
def TimestampVisitor.expecting : String := "a date string"

/-- `TimestampVisitor::visit_str` (timestamp.rs lines 45-51): parse as
RFC 3339, wrapping the parse error via `Error::custom`, and convert the
parsed calendar value through `From<OffsetDateTime>`. -/
def TimestampVisitor.visit_str (s : String) : Except String Timestamp :=
  match parseRfc3339 s with
  | .error e => .error (serdeCustom e)
  | .ok dt => .ok (Timestamp.fromOffsetDateTime dt)

/-- The token shapes a self-describing deserializer can hand to a
visitor. Modelled from the spec: the surrounding format layer. -/
inductive Token where
  | str : String → Token
  | int : Int → Token
  | boolean : Bool → Token
  | nullTok : Token
  | seqTok : Token
  | mapTok : Token
deriving DecidableEq

/-- Modelled from the spec: serde's description of an unexpected token,
used in `invalid_type` shape-mismatch errors. -/
def Token.descr : Token → String
  | .str s => "string " ++ s
  | .int _ => "integer"
  | .boolean _ => "boolean"
  | .nullTok => "unit value"
  | .seqTok => "sequence"
  | .mapTok => "map"

/-- `Deserialize for Timestamp` (timestamp.rs lines 54-61):
`deserializer.deserialize_str(TimestampVisitor)` — a string token goes to
`visit_str`; every other token shape falls to the visitor's default
handlers, which fail with a shape-mismatch error naming the declared
expectation. -/
def Timestamp.deserialize (t : Token) : Except String Timestamp :=
  match t with
  | .str s => TimestampVisitor.visit_str s
  | t => .error ("invalid type: " ++ t.descr ++ ", expected " ++ TimestampVisitor.expecting)

/-- `Hash for Timestamp` (timestamp.rs lines 63-69): feed `seconds`, then
`nanos`, to the hasher state — no normalization. Abstract over any hasher
state type and its primitive write operations. -/
def Timestamp.hashWith {σ : Type} (hashI64 hashI32 : σ → Int → σ)
    (state : σ) (ts : Timestamp) : σ :=
  hashI32 (hashI64 state ts.seconds) ts.nanos

/-! ## Lemmas: the civil-date bijection -/

theorem yearDay_decomp (doe : Nat) (h : doe < 146097) :
    ∃ c q y1 doy, yearDayOfDoe doe = (100 * c + 4 * q + y1, doy) ∧
      c ≤ 3 ∧ q ≤ 24 ∧ y1 ≤ 3 ∧ doy ≤ 365 ∧
      doe = 36524 * c + 1461 * q + 365 * y1 + doy ∧
      (doy = 365 → y1 = 3 ∧ (q = 24 → c = 3)) := by
  refine ⟨min (doe / 36524) 3, (doe - 36524 * min (doe / 36524) 3) / 1461,
    min ((doe - 36524 * min (doe / 36524) 3) % 1461 / 365) 3,
    (doe - 36524 * min (doe / 36524) 3) % 1461 -
      365 * min ((doe - 36524 * min (doe / 36524) 3) % 1461 / 365) 3,
    rfl, ?_, ?_, ?_, ?_, ?_, ?_⟩ <;> omega

theorem monthDay_decomp (doy : Nat) (h : doy ≤ 365) :
    ∃ mp dd, monthDayOfDoy doy = (mp, dd) ∧ mp ≤ 11 ∧ 1 ≤ dd ∧
      (153 * mp + 2) / 5 + (dd - 1) = doy ∧ dd ≤ 31 ∧
      (mp = 1 ∨ mp = 3 ∨ mp = 6 ∨ mp = 8 → dd ≤ 30) ∧
      (mp = 11 → dd ≤ 29) ∧ (mp = 11 → dd = 29 → doy = 365) := by
  refine ⟨(5 * doy + 2) / 153, doy - (153 * ((5 * doy + 2) / 153) + 2) / 5 + 1,
    rfl, ?_, ?_, ?_, ?_, ?_, ?_, ?_⟩ <;> omega

theorem daysFromCivil_ge3 (era yoe m d : Nat) (hyoe : yoe ≤ 399) (hm : 3 ≤ m)
    (hbase : 400 ≤ 400 * era + yoe) :
    daysFromCivil (400 * era + yoe - 400) m d =
      146097 * era + (365 * yoe + yoe / 4 - yoe / 100) +
        ((153 * (m - 3) + 2) / 5 + (d - 1)) := by
  simp only [daysFromCivil]
  rw [if_neg (by omega), if_pos hm]
  have h1 : 400 * era + yoe - 400 + 400 = 400 * era + yoe := by omega
  rw [h1]
  have h2 : (400 * era + yoe) / 400 = era := by omega
  have h3 : (400 * era + yoe) % 400 = yoe := by omega
  rw [h2, h3]
  omega

theorem daysFromCivil_le2 (era yoe m d : Nat) (hyoe : yoe ≤ 399) (hm : m ≤ 2)
    (hbase : 400 ≤ 400 * era + yoe + 1) :
    daysFromCivil (400 * era + yoe + 1 - 400) m d =
      146097 * era + (365 * yoe + yoe / 4 - yoe / 100) +
        ((153 * (m + 9) + 2) / 5 + (d - 1)) := by
  simp only [daysFromCivil]
  rw [if_pos hm, if_neg (by omega)]
  have h1 : 400 * era + yoe + 1 - 400 + 399 = 400 * era + yoe := by omega
  rw [h1]
  have h2 : (400 * era + yoe) / 400 = era := by omega
  have h3 : (400 * era + yoe) % 400 = yoe := by omega
  rw [h2, h3]
  omega

set_option maxHeartbeats 1600000 in
theorem civil_inv (n : Nat) (h1 : 146037 ≤ n) (h2 : n ≤ 3798461) (y m d : Nat)
    (hc : civilFromDays n = (y, m, d)) :
    daysFromCivil y m d = n ∧ 1 ≤ m ∧ m ≤ 12 ∧ 1 ≤ d ∧ d ≤ daysInMonth y m ∧
      y ≤ 9999 := by
  obtain ⟨c, q, y1, doy, hyd, hc3, hq24, hy13, hdoy, hdecomp, hedge⟩ :=
    yearDay_decomp (n % 146097) (by omega)
  obtain ⟨mp, dd, hmd, hmp11, hdd1, hrecon, hdd31, hdd30, hdd29, hddfeb⟩ :=
    monthDay_decomp doy hdoy
  have hg : (100 * c + 4 * q + y1) / 4 = 25 * c + q := by omega
  have hi : (100 * c + 4 * q + y1) / 100 = c := by omega
  simp only [civilFromDays, hyd, hmd] at hc
  by_cases hmp : mp < 10
  · rw [if_pos hmp, if_neg (by omega), Prod.mk.injEq, Prod.mk.injEq] at hc
    obtain ⟨hy, hm, hd⟩ := hc
    subst hy hm hd
    have hP275 : (153 * mp + 2) / 5 ≤ 275 := by omega
    have hdoy305 : doy ≤ 305 := by omega
    have hdoeUB : 36524 * c + 1461 * q + 365 * y1 ≤ 145731 := by omega
    have hnmod : n % 146097 ≤ 146036 := by omega
    have hbase : 400 ≤ 400 * (n / 146097) + (100 * c + 4 * q + y1) := by omega
    refine ⟨?_, by omega, by omega, hdd1, ?_, by omega⟩
    · rw [daysFromCivil_ge3 (n / 146097) (100 * c + 4 * q + y1) (mp + 3) dd
        (by omega) (by omega) hbase]
      omega
    · simp only [daysInMonth]
      rw [if_neg (by omega)]
      split_ifs <;> omega
  · rw [if_neg hmp, if_pos (by omega), Prod.mk.injEq, Prod.mk.injEq] at hc
    obtain ⟨hy, hm, hd⟩ := hc
    subst hy hm hd
    have hP306 : 306 ≤ (153 * mp + 2) / 5 := by omega
    have hbase : 400 ≤ 400 * (n / 146097) + (100 * c + 4 * q + y1) + 1 := by omega
    refine ⟨?_, by omega, by omega, hdd1, ?_, by omega⟩
    · rw [daysFromCivil_le2 (n / 146097) (100 * c + 4 * q + y1) (mp - 9) dd
        (by omega) (by omega) hbase]
      omega
    · simp only [daysInMonth, isLeap, Bool.or_eq_true, Bool.and_eq_true,
        beq_iff_eq, bne_iff_ne, decide_eq_true_eq]
      split_ifs <;> omega

/-! ## Lemmas: digit rendering and lexing -/

theorem charDigit_digitChar (d : Nat) (h : d ≤ 9) :
    charDigit (digitChar d) = some d := by
  interval_cases d <;> rfl

theorem readFixed_digitsPad (k : Nat) : ∀ (n acc : Nat) (rest : List Char),
    n < 10 ^ k →
    readFixed k acc (digitsPad k n ++ rest) = some (10 ^ k * acc + n, rest) := by
  induction k with
  | zero =>
    intro n acc rest hn
    rw [pow_zero] at hn ⊢
    have hn0 : n = 0 := by omega
    subst hn0
    simp [digitsPad, readFixed]
  | succ k ih =>
    intro n acc rest hn
    have hpos : 0 < 10 ^ k := pow_pos (by omega) k
    have h10 : 10 ^ (k + 1) = 10 ^ k * 10 := pow_succ 10 k
    have hq : n / 10 ^ k < 10 := (Nat.div_lt_iff_lt_mul hpos).mpr (by omega)
    simp only [digitsPad, List.cons_append, readFixed,
      charDigit_digitChar (n / 10 ^ k) (by omega), List.append_eq]
    rw [ih (n % 10 ^ k) (10 * acc + n / 10 ^ k) rest (Nat.mod_lt _ hpos)]
    have hrec : 10 ^ k * (n / 10 ^ k) + n % 10 ^ k = n := Nat.div_add_mod n (10 ^ k)
    have heq : 10 ^ k * (10 * acc + n / 10 ^ k) + n % 10 ^ k = 10 ^ (k + 1) * acc + n := by
      rw [pow_succ]
      nlinarith [hrec]
    rw [heq]

theorem readDigitsAux_digitsPad (k : Nat) : ∀ (v acc cnt : Nat) (c : Char)
    (rest : List Char), v < 10 ^ k → charDigit c = none →
    readDigitsAux (digitsPad k v ++ c :: rest) acc cnt =
      (10 ^ k * acc + v, cnt + k, c :: rest) := by
  induction k with
  | zero =>
    intro v acc cnt c rest hv hc
    rw [pow_zero] at hv ⊢
    have hv0 : v = 0 := by omega
    subst hv0
    simp [digitsPad, readDigitsAux, hc]
  | succ k ih =>
    intro v acc cnt c rest hv hc
    have hpos : 0 < 10 ^ k := pow_pos (by omega) k
    have h10 : 10 ^ (k + 1) = 10 ^ k * 10 := pow_succ 10 k
    have hq : v / 10 ^ k < 10 := (Nat.div_lt_iff_lt_mul hpos).mpr (by omega)
    simp only [digitsPad, List.cons_append, readDigitsAux,
      charDigit_digitChar (v / 10 ^ k) (by omega), List.append_eq]
    rw [ih (v % 10 ^ k) (10 * acc + v / 10 ^ k) (cnt + 1) c rest (Nat.mod_lt _ hpos) hc]
    have hrec : 10 ^ k * (v / 10 ^ k) + v % 10 ^ k = v := Nat.div_add_mod v (10 ^ k)
    have h1 : 10 ^ k * (10 * acc + v / 10 ^ k) + v % 10 ^ k = 10 ^ (k + 1) * acc + v := by
      rw [pow_succ]
      nlinarith [hrec]
    rw [h1]
    have h2 : cnt + 1 + k = cnt + (k + 1) := by omega
    rw [h2]

theorem trailingZeros_le (f : Nat) : ∀ n, trailingZeros f n ≤ f := by
  induction f with
  | zero => intro n; simp [trailingZeros]
  | succ f ih =>
    intro n
    simp only [trailingZeros]
    split_ifs
    · have := ih (n / 10)
      omega
    · omega

theorem pow_trailingZeros_dvd (f : Nat) : ∀ n, 10 ^ trailingZeros f n ∣ n := by
  induction f with
  | zero => intro n; simp [trailingZeros]
  | succ f ih =>
    intro n
    simp only [trailingZeros]
    split_ifs with h
    · obtain ⟨w, hw⟩ := ih (n / 10)
      refine ⟨w, ?_⟩
      have hn : n = 10 * (n / 10) := by omega
      conv_lhs => rw [hn, hw]
      rw [pow_succ]
      ring
    · simp

theorem readFixed_digitsPad0 (k n : Nat) (h : n < 10 ^ k) (rest : List Char) :
    readFixed k 0 (digitsPad k n ++ rest) = some (n, rest) := by
  rw [readFixed_digitsPad k n 0 rest h, Nat.mul_zero, Nat.zero_add]

theorem expectChar_self (c : Char) (rest : List Char) :
    expectChar c (c :: rest) = some rest := by
  simp [expectChar]

theorem lexFrac_fracChars (nanos : Nat) (h : nanos < 1000000000) :
    lexFrac (fracChars nanos ++ ['Z']) = some (nanos, ['Z']) := by
  by_cases h0 : nanos = 0
  · subst h0
    rfl
  · set z := trailingZeros 8 nanos with hz
    have hz8 : z ≤ 8 := trailingZeros_le 8 nanos
    have hdvd : 10 ^ z ∣ nanos := pow_trailingZeros_dvd 8 nanos
    have h9 : (10 : Nat) ^ 9 = 1000000000 := by norm_num
    have hvlt : nanos / 10 ^ z < 10 ^ (9 - z) := by
      have hzz9 : 9 - z + z = 9 := by omega
      have hpw : 10 ^ (9 - z) * 10 ^ z = 10 ^ 9 := by
        rw [← pow_add, hzz9]
      rw [Nat.div_lt_iff_lt_mul (pow_pos (by omega) z), hpw, h9]
      exact h
    have hfc : fracChars nanos = '.' :: digitsPad (9 - z) (nanos / 10 ^ z) := by
      simp only [fracChars, if_neg h0]
    rw [hfc]
    simp only [List.cons_append, lexFrac]
    rw [readDigitsAux_digitsPad (9 - z) (nanos / 10 ^ z) 0 0 'Z' []
      hvlt (by rfl)]
    dsimp only
    split_ifs with hcond
    · have hzz : 9 - (0 + (9 - z)) = z := by omega
      rw [hzz, Nat.mul_zero, Nat.zero_add, Nat.div_mul_cancel hdvd]
    · exact absurd ⟨by omega, by omega⟩ hcond

theorem expectSep_T (rest : List Char) : expectSep ('T' :: rest) = some rest := by
  simp [expectSep]

theorem lexOffset_Z : lexOffset ['Z'] = some (0, []) := rfl

set_option maxHeartbeats 1600000 in
theorem lexParts_format (y mo d h mi s nanos : Nat) (hy : y ≤ 9999) (hmo : mo ≤ 99)
    (hd : d ≤ 99) (hh : h ≤ 99) (hmi : mi ≤ 99) (hs : s ≤ 99)
    (hn : nanos < 1000000000) :
    lexParts (digitsPad 4 y ++ '-' :: (digitsPad 2 mo ++ '-' :: (digitsPad 2 d ++
        'T' :: (digitsPad 2 h ++ ':' :: (digitsPad 2 mi ++ ':' :: (digitsPad 2 s ++
        (fracChars nanos ++ ['Z']))))))) = some ⟨y, mo, d, h, mi, s, nanos, 0⟩ := by
  simp only [lexParts, readFixed_digitsPad0 4 y (lt_of_le_of_lt hy (by norm_num)),
    readFixed_digitsPad0 2 mo (lt_of_le_of_lt hmo (by norm_num)),
    readFixed_digitsPad0 2 d (lt_of_le_of_lt hd (by norm_num)),
    readFixed_digitsPad0 2 h (lt_of_le_of_lt hh (by norm_num)),
    readFixed_digitsPad0 2 mi (lt_of_le_of_lt hmi (by norm_num)),
    readFixed_digitsPad0 2 s (lt_of_le_of_lt hs (by norm_num)),
    expectChar_self, expectSep_T, lexFrac_fracChars nanos hn, lexOffset_Z,
    Option.some_bind, if_true]

theorem daysInMonth_le (y m : Nat) : daysInMonth y m ≤ 31 := by
  simp only [daysInMonth]
  split_ifs <;> omega

set_option maxHeartbeats 1600000 in
theorem parse_format (ns : Int) (h1 : minReprNs ≤ ns) (h2 : ns ≤ maxReprNs) :
    parseRfc3339 (String.mk (formatRfc3339 ⟨ns⟩)) = .ok ⟨ns⟩ := by
  have hc1 : minReprNs = -62167219200000000000 := by norm_num [minReprNs, minFmtSec]
  have hc2 : maxReprNs = 253402300799999999999 := by norm_num [maxReprNs, maxFmtSec]
  set T := (ns + shiftSec * 1000000000).toNat with hTdef
  have hT : (T : Int) = ns + 74784816000000000000 := by
    rw [hTdef]
    simp only [shiftSec]
    omega
  obtain ⟨y, mo, dd, hcv⟩ : ∃ a b c, civilFromDays (T / 1000000000 / 86400) = (a, b, c) :=
    ⟨_, _, _, rfl⟩
  have hdayLB : 146037 ≤ T / 1000000000 / 86400 := by omega
  have hdayUB : T / 1000000000 / 86400 ≤ 3798461 := by omega
  obtain ⟨hdc, hm1, hm12, hd1, hdim, hy9999⟩ :=
    civil_inv (T / 1000000000 / 86400) hdayLB hdayUB y mo dd hcv
  have hdim31 := daysInMonth_le y mo
  have hfmt : formatRfc3339 ⟨ns⟩ =
      digitsPad 4 y ++ '-' :: digitsPad 2 mo ++ '-' :: digitsPad 2 dd ++
        'T' :: digitsPad 2 (T / 1000000000 % 86400 / 3600) ++
        ':' :: digitsPad 2 (T / 1000000000 % 86400 % 3600 / 60) ++
        ':' :: digitsPad 2 (T / 1000000000 % 86400 % 60) ++
        fracChars (T % 1000000000) ++ ['Z'] := by
    simp only [formatRfc3339, ← hTdef, hcv]
  rw [hfmt]
  simp only [parseRfc3339]
  simp only [List.append_assoc, List.cons_append]
  rw [lexParts_format y mo dd (T / 1000000000 % 86400 / 3600)
    (T / 1000000000 % 86400 % 3600 / 60) (T / 1000000000 % 86400 % 60)
    (T % 1000000000) (by omega) (by omega) (by omega) (by omega) (by omega)
    (by omega) (by omega)]
  dsimp only
  have hvalid : validParts ⟨y, mo, dd, T / 1000000000 % 86400 / 3600,
      T / 1000000000 % 86400 % 3600 / 60, T / 1000000000 % 86400 % 60,
      T % 1000000000, 0⟩ = true := by
    simp only [validParts, decide_eq_true_eq]
    omega
  rw [if_pos hvalid]
  have hinst : partsToInstantNs ⟨y, mo, dd, T / 1000000000 % 86400 / 3600,
      T / 1000000000 % 86400 % 3600 / 60, T / 1000000000 % 86400 % 60,
      T % 1000000000, 0⟩ = ns := by
    simp only [partsToInstantNs, shiftSec]
    rw [hdc]
    have hnat : (86400 * (T / 1000000000 / 86400) + 3600 * (T / 1000000000 % 86400 / 3600) +
          60 * (T / 1000000000 % 86400 % 3600 / 60) + T / 1000000000 % 86400 % 60) *
          1000000000 + T % 1000000000 = T := by
      omega
    rw [hnat]
    simp only [Int.ofNat_eq_coe]
    omega
  rw [hinst]

/-! ## Lemmas: the `i128` intermediate -/

theorem totalNsI128_eq_totalNs (ts : Timestamp) (h1 : -(2 ^ 63) ≤ ts.seconds)
    (h2 : ts.seconds < 2 ^ 63) (h3 : -(2 ^ 31) ≤ ts.nanos) (h4 : ts.nanos < 2 ^ 31) :
    ts.totalNsI128 = ts.totalNs := by
  have p63 : (2 : Int) ^ 63 = 9223372036854775808 := by norm_num
  have p31 : (2 : Int) ^ 31 = 2147483648 := by norm_num
  have p127 : (2 : Int) ^ 127 = 170141183460469231731687303715884105728 := by norm_num
  have p128 : (2 : Int) ^ 128 = 340282366920938463463374607431768211456 := by norm_num
  rw [p63] at h1 h2
  rw [p31] at h3 h4
  simp only [Timestamp.totalNsI128, Timestamp.totalNs, wrapI128, p127, p128]
  omega

/-! ## Claim theorems -/

set_option maxRecDepth 100000

/-- C1: for every `Timestamp` with `nanos` in `[0, 1_000_000_000)` and `seconds`
in the calendar abstraction's representable range, deserializing the string
produced by serializing it yields a structurally equal `Timestamp`. -/
theorem c1_serialize_deserialize_round_trip (ts : Timestamp)
    (hn0 : 0 ≤ ts.nanos) (hn1 : ts.nanos < 1000000000)
    (hs0 : minFmtSec ≤ ts.seconds) (hs1 : ts.seconds ≤ maxFmtSec) :
    ∃ s, ts.serialize = .value (.ok s) ∧ Timestamp.deserialize (.str s) = .ok ts := by
  have hc1 : minFmtSec = -62167219200 := by norm_num [minFmtSec]
  have hc2 : maxFmtSec = 253402300799 := by norm_num [maxFmtSec]
  rw [hc1] at hs0
  rw [hc2] at hs1
  have htot : ts.totalNsI128 = ts.totalNs := by
    apply totalNsI128_eq_totalNs <;> norm_num <;> omega
  have htot2 : ts.totalNsI128 = ts.seconds * 1000000000 + ts.nanos := by
    rw [htot, Timestamp.totalNs]
  have hrange : minReprNs ≤ ts.totalNsI128 ∧ ts.totalNsI128 ≤ maxReprNs := by
    have e1 : minReprNs = -62167219200000000000 := by norm_num [minReprNs, minFmtSec]
    have e2 : maxReprNs = 253402300799999999999 := by norm_num [maxReprNs, maxFmtSec]
    rw [htot2, e1, e2]
    omega
  have hfu : OffsetDateTime.fromUnixTimestampNanos ts.totalNsI128 =
      some ⟨ts.totalNsI128⟩ := by
    unfold OffsetDateTime.fromUnixTimestampNanos
    exact if_pos hrange
  have hto : ts.toOffsetDateTime = .value ⟨ts.totalNsI128⟩ := by
    unfold Timestamp.toOffsetDateTime
    rw [hfu]
  refine ⟨String.mk (formatRfc3339 ⟨ts.totalNsI128⟩), ?_, ?_⟩
  · unfold Timestamp.serialize
    rw [hto]
  · have hvs : Timestamp.deserialize
        (.str (String.mk (formatRfc3339 ⟨ts.totalNsI128⟩))) =
        TimestampVisitor.visit_str (String.mk (formatRfc3339 ⟨ts.totalNsI128⟩)) := rfl
    rw [hvs]
    unfold TimestampVisitor.visit_str
    rw [parse_format ts.totalNsI128 hrange.1 hrange.2]
    have e0 : Timestamp.fromOffsetDateTime ⟨ts.totalNsI128⟩ = ts := by
      unfold Timestamp.fromOffsetDateTime OffsetDateTime.unixTimestamp
        OffsetDateTime.nanosecond
      rw [htot2]
      have e1 : (ts.seconds * 1000000000 + ts.nanos) / 1000000000 = ts.seconds := by
        omega
      have e2 : (ts.seconds * 1000000000 + ts.nanos) % 1000000000 = ts.nanos := by
        omega
      rw [e1, e2]
    dsimp only
    rw [e0]

/-- Witness for C1 at the concrete timestamp `(1431680400, 123456789)`. -/
theorem c1_witness :
    ∃ s, Timestamp.serialize ⟨1431680400, 123456789⟩ = .value (.ok s) ∧
      Timestamp.deserialize (.str s) = .ok ⟨1431680400, 123456789⟩ :=
  c1_serialize_deserialize_round_trip ⟨1431680400, 123456789⟩
    (by norm_num) (by norm_num) (by norm_num [minFmtSec]) (by norm_num [maxFmtSec])

/-- C2: `Timestamp` equality is purely structural — equal iff both fields are
equal — so `(1, 1_000_000_000)` and `(2, 0)` are unequal although they denote
the same instant. -/
theorem c2_structural_equality :
    (∀ a b : Timestamp, a = b ↔ a.seconds = b.seconds ∧ a.nanos = b.nanos) ∧
    Timestamp.mk 1 1000000000 ≠ Timestamp.mk 2 0 := by
  refine ⟨fun a b => ⟨fun hab => by rw [hab]; exact ⟨rfl, rfl⟩, fun hab => ?_⟩, by decide⟩
  obtain ⟨h1, h2⟩ := hab
  cases a
  cases b
  simp_all

/-- Witness for C2 at concrete timestamps. -/
theorem c2_witness :
    ((Timestamp.mk 5 7 = Timestamp.mk 5 7) ↔
      ((Timestamp.mk 5 7).seconds = (Timestamp.mk 5 7).seconds ∧
        (Timestamp.mk 5 7).nanos = (Timestamp.mk 5 7).nanos)) ∧
    Timestamp.mk 1 1000000000 ≠ Timestamp.mk 2 0 :=
  ⟨c2_structural_equality.1 ⟨5, 7⟩ ⟨5, 7⟩, c2_structural_equality.2⟩

/-- C3: the hash of a `Timestamp` is the order-sensitive combination of the
hash of `seconds` followed by the hash of `nanos`, with no normalization, so
structurally equal values hash equally under any hasher. -/
theorem c3_hash_contract :
    (∀ (σ : Type) (h64 h32 : σ → Int → σ) (st : σ) (ts : Timestamp),
      Timestamp.hashWith h64 h32 st ts = h32 (h64 st ts.seconds) ts.nanos) ∧
    (∀ (σ : Type) (h64 h32 : σ → Int → σ) (st : σ) (a b : Timestamp),
      a = b → Timestamp.hashWith h64 h32 st a = Timestamp.hashWith h64 h32 st b) :=
  ⟨fun _ _ _ _ _ => rfl, fun _ _ _ _ _ _ hab => by rw [hab]⟩

/-- Witness for C3 with a concrete list-accumulating hasher. -/
theorem c3_witness :
    Timestamp.hashWith (fun (st : List Int) x => st ++ [x])
        (fun st x => st ++ [x]) [] ⟨3, 4⟩ =
      Timestamp.hashWith (fun (st : List Int) x => st ++ [x])
        (fun st x => st ++ [x]) [] ⟨3, 4⟩ :=
  c3_hash_contract.2 (List Int) _ _ [] ⟨3, 4⟩ ⟨3, 4⟩ rfl

/-- C4 counterexample: serializing `Timestamp{seconds: 1431684000, nanos: 0}`
yields `"2015-05-15T10:00:00Z"`, not `"2015-05-15T09:00:00Z"` — epoch second
`1431684000` is `10:00:00Z`, one hour later than the claim's instant. -/
theorem c4_counterexample :
    Timestamp.serialize ⟨1431684000, 0⟩ = .value (.ok "2015-05-15T10:00:00Z") ∧
    ("2015-05-15T10:00:00Z" : String) ≠ "2015-05-15T09:00:00Z" := by
  refine ⟨by decide, by decide⟩

/-- C4 amended: the calendar instant `2015-05-15T09:00:00Z` (the instant with
epoch nanoseconds `1431680400 * 10^9`, as the RFC 3339 parse confirms)
converts to `Timestamp{seconds: 1431680400, nanos: 0}`, and serializing that
`Timestamp` yields exactly `"2015-05-15T09:00:00Z"`. -/
theorem c4_amended :
    parseRfc3339 "2015-05-15T09:00:00Z" = .ok ⟨1431680400 * 1000000000⟩ ∧
    Timestamp.fromOffsetDateTime ⟨1431680400 * 1000000000⟩ =
      Timestamp.mk 1431680400 0 ∧
    Timestamp.serialize ⟨1431680400, 0⟩ = .value (.ok "2015-05-15T09:00:00Z") := by
  refine ⟨by decide, by decide, by decide⟩

/-- C5 counterexample: the calendar instant `2015-05-15T09:00:00.123456789Z`
converts to `Timestamp{seconds: 1431680400, nanos: 123456789}`, whose
`seconds` differ from the claimed `1431684000`. -/
theorem c5_counterexample :
    parseRfc3339 "2015-05-15T09:00:00.123456789Z" = .ok ⟨1431680400123456789⟩ ∧
    Timestamp.fromOffsetDateTime ⟨1431680400123456789⟩ =
      Timestamp.mk 1431680400 123456789 ∧
    Timestamp.mk 1431680400 123456789 ≠ Timestamp.mk 1431684000 123456789 := by
  refine ⟨by decide, by decide, by decide⟩

/-- C5 amended: `2015-05-15T09:00:00.123456789Z` converts to
`Timestamp{seconds: 1431680400, nanos: 123456789}` and back to the same
calendar instant with no loss of sub-second precision. -/
theorem c5_amended :
    Timestamp.fromOffsetDateTime ⟨1431680400123456789⟩ =
      Timestamp.mk 1431680400 123456789 ∧
    Timestamp.toOffsetDateTime ⟨1431680400, 123456789⟩ =
      .value ⟨1431680400123456789⟩ ∧
    Timestamp.serialize ⟨1431680400, 123456789⟩ =
      .value (.ok "2015-05-15T09:00:00.123456789Z") := by
  refine ⟨by decide, by decide, by decide⟩

/-- C6: the `i128` computation `seconds as i128 * 1_000_000_000 + nanos as
i128` never overflows for `i64` seconds and `i32` nanos, so it equals the
exact mathematical value. -/
theorem c6_i128_total_ns_exact (s n : Int) (h1 : -(2 ^ 63) ≤ s) (h2 : s < 2 ^ 63)
    (h3 : -(2 ^ 31) ≤ n) (h4 : n < 2 ^ 31) :
    Timestamp.totalNsI128 ⟨s, n⟩ = s * 1000000000 + n ∧
    -(2 ^ 127) ≤ s * 1000000000 + n ∧ s * 1000000000 + n < 2 ^ 127 := by
  have heq := totalNsI128_eq_totalNs ⟨s, n⟩ h1 h2 h3 h4
  have p63 : (2 : Int) ^ 63 = 9223372036854775808 := by norm_num
  have p31 : (2 : Int) ^ 31 = 2147483648 := by norm_num
  have p127 : (2 : Int) ^ 127 = 170141183460469231731687303715884105728 := by
    norm_num
  refine ⟨by rw [heq, Timestamp.totalNs], ?_, ?_⟩ <;> rw [p127] <;> omega

/-- Witness for C6 at the extreme `i64`/`i32` values. -/
theorem c6_witness :
    Timestamp.totalNsI128 ⟨9223372036854775807, 2147483647⟩ =
      9223372036854775807 * 1000000000 + 2147483647 ∧
    -(2 ^ 127) ≤ 9223372036854775807 * 1000000000 + 2147483647 ∧
    (9223372036854775807 : Int) * 1000000000 + 2147483647 < 2 ^ 127 :=
  c6_i128_total_ns_exact 9223372036854775807 2147483647 (by norm_num)
    (by norm_num) (by norm_num) (by norm_num)

/-- C7 counterexample: serializing an out-of-range `Timestamp` does not
return a serialization error — the `.unwrap()` inside
`From<Timestamp> for OffsetDateTime` panics, so the call never returns. -/
theorem c7_counterexample :
    Timestamp.serialize ⟨253402300800, 0⟩ = PanicOr.panicked := by decide

/-- C7 amended: for every `Timestamp` whose `i128` nanosecond count falls
outside the calendar abstraction's representable range, serialization does
not silently truncate — it panics (aborts) rather than returning a value or
a serialization error. -/
theorem c7_amended_panic_on_out_of_range (ts : Timestamp)
    (h : ts.totalNsI128 < minReprNs ∨ maxReprNs < ts.totalNsI128) :
    ts.serialize = PanicOr.panicked := by
  have hfu : OffsetDateTime.fromUnixTimestampNanos ts.totalNsI128 = none := by
    unfold OffsetDateTime.fromUnixTimestampNanos
    rw [if_neg]
    rintro ⟨hh1, hh2⟩
    rcases h with h | h
    · omega
    · omega
  unfold Timestamp.serialize Timestamp.toOffsetDateTime
  rw [hfu]

/-- Witness for C7 just past the largest representable second. -/
theorem c7_witness : Timestamp.serialize ⟨253402300801, 0⟩ = PanicOr.panicked :=
  c7_amended_panic_on_out_of_range ⟨253402300801, 0⟩ (Or.inr (by decide))

/-- C8: whenever the RFC 3339 parser rejects the input string,
deserialization fails and the error carries the parser's diagnostic message
verbatim (`Error::custom` preserves the message unchanged). -/
theorem c8_parse_error_wrapped_verbatim (s e : String)
    (h : parseRfc3339 s = .error e) :
    Timestamp.deserialize (.str s) = .error (serdeCustom e) ∧ serdeCustom e = e := by
  refine ⟨?_, rfl⟩
  have hvs : Timestamp.deserialize (.str s) = TimestampVisitor.visit_str s := rfl
  rw [hvs]
  unfold TimestampVisitor.visit_str
  rw [h]

/-- Witness for C8 on the malformed input `"not-a-date"`. -/
theorem c8_witness :
    Timestamp.deserialize (.str "not-a-date") =
      .error (serdeCustom
        "the input string does not match the RFC 3339 date-time grammar") ∧
    serdeCustom "the input string does not match the RFC 3339 date-time grammar" =
      "the input string does not match the RFC 3339 date-time grammar" :=
  c8_parse_error_wrapped_verbatim "not-a-date"
    "the input string does not match the RFC 3339 date-time grammar" (by decide)

/-- C9: deserialization accepts exactly the string token shape, its declared
expectation is `"a date string"`, and every non-string token fails with a
shape-mismatch error carrying that expectation. -/
theorem c9_string_only_deserialization :
    TimestampVisitor.expecting = "a date string" ∧
    (∀ s, Timestamp.deserialize (.str s) = TimestampVisitor.visit_str s) ∧
    (∀ t : Token, (∀ s, t ≠ .str s) →
      Timestamp.deserialize t =
        .error ("invalid type: " ++ t.descr ++ ", expected " ++
          TimestampVisitor.expecting)) := by
  refine ⟨rfl, fun s => rfl, fun t ht => ?_⟩
  cases t with
  | str s => exact absurd rfl (ht s)
  | int i => rfl
  | boolean b => rfl
  | nullTok => rfl
  | seqTok => rfl
  | mapTok => rfl

/-- Witness for C9 on an integer token. -/
theorem c9_witness :
    Timestamp.deserialize (Token.int 5) =
      .error ("invalid type: " ++ (Token.int 5).descr ++ ", expected " ++
        TimestampVisitor.expecting) :=
  c9_string_only_deserialization.2.2 (Token.int 5) (fun _ h => Token.noConfusion h)

/-- C10: converting an in-range `Timestamp` to a calendar value and back
yields the normalized `Timestamp` denoting the same instant; consequently the
instant-equivalent but structurally unequal `(1, 1_000_000_000)` and `(2, 0)`
serialize to the same string. -/
theorem c10_conversion_normalizes (ts : Timestamp)
    (hi1 : -(2 ^ 63) ≤ ts.seconds) (hi2 : ts.seconds < 2 ^ 63)
    (hi3 : -(2 ^ 31) ≤ ts.nanos) (hi4 : ts.nanos < 2 ^ 31)
    (h1 : minReprNs ≤ ts.totalNs) (h2 : ts.totalNs ≤ maxReprNs) :
    (∃ dt, ts.toOffsetDateTime = .value dt ∧
      0 ≤ (Timestamp.fromOffsetDateTime dt).nanos ∧
      (Timestamp.fromOffsetDateTime dt).nanos < 1000000000 ∧
      (Timestamp.fromOffsetDateTime dt).totalNs = ts.totalNs) ∧
    Timestamp.serialize ⟨1, 1000000000⟩ = Timestamp.serialize ⟨2, 0⟩ := by
  have heq := totalNsI128_eq_totalNs ts hi1 hi2 hi3 hi4
  have hc : minReprNs ≤ ts.totalNsI128 ∧ ts.totalNsI128 ≤ maxReprNs := by
    rw [heq]
    exact ⟨h1, h2⟩
  have hfu : OffsetDateTime.fromUnixTimestampNanos ts.totalNsI128 =
      some ⟨ts.totalNsI128⟩ := by
    unfold OffsetDateTime.fromUnixTimestampNanos
    exact if_pos hc
  have hn : (Timestamp.fromOffsetDateTime ⟨ts.totalNsI128⟩).nanos =
      ts.totalNsI128 % 1000000000 := rfl
  have hsd : (Timestamp.fromOffsetDateTime ⟨ts.totalNsI128⟩).seconds =
      ts.totalNsI128 / 1000000000 := rfl
  have htn : ts.totalNs = ts.seconds * 1000000000 + ts.nanos := rfl
  refine ⟨⟨⟨ts.totalNsI128⟩, ?_, ?_, ?_, ?_⟩, by decide⟩
  · unfold Timestamp.toOffsetDateTime
    rw [hfu]
  · rw [hn]
    omega
  · rw [hn]
    omega
  · rw [Timestamp.totalNs, hn, hsd]
    omega

/-- Witness for C10 at the non-normalized timestamp `(1, 1_000_000_000)`. -/
theorem c10_witness :
    (∃ dt, Timestamp.toOffsetDateTime ⟨1, 1000000000⟩ = .value dt ∧
      0 ≤ (Timestamp.fromOffsetDateTime dt).nanos ∧
      (Timestamp.fromOffsetDateTime dt).nanos < 1000000000 ∧
      (Timestamp.fromOffsetDateTime dt).totalNs =
        Timestamp.totalNs ⟨1, 1000000000⟩) ∧
    Timestamp.serialize ⟨1, 1000000000⟩ = Timestamp.serialize ⟨2, 0⟩ :=
  c10_conversion_normalizes ⟨1, 1000000000⟩ (by norm_num) (by norm_num)
    (by norm_num) (by norm_num) (by decide) (by decide)
